import Mathlib

/-!
Verification of the persona-dispatch / report-aggregation core of a
multi-persona code-review tool (source: src/main.py).

Modelling conventions:
* The external text-generation endpoint (`model.generate_content`) is an
  oracle `Endpoint : String → Except String String`: `.ok text` is a
  successful generation, `.error msg` is any raised endpoint exception
  (network, quota, malformed response) carrying its message.  The numeric
  generation parameters (max tokens, temperature) are configuration data
  that do not influence the control flow being verified, so the oracle
  abstracts over them.
* Python `str.format(code_diff=...)` is modelled by `pyFormat`, covering
  the fragment of CPython format-string semantics the program can hit:
  literal text, doubled braces as escapes, the named field `code_diff`,
  unknown field names (KeyError), empty field names with no positional
  argument (IndexError), and stray braces (ValueError).
* Raised Python exceptions are `Except.error`; console printing is pure
  observation, so the one warning print in `CodeReviewEngine.review_code`
  is recorded as a boolean, and the prompts actually sent to the endpoint
  are recorded in `calls` so that "no endpoint invocation happened" is a
  statable property.
-/

/-- The opening brace character, written via its code point. -/
def lbrace : Char := Char.ofNat 123

/-- The closing brace character, written via its code point. -/
def rbrace : Char := Char.ofNat 125

/-- Exceptions that CPython `str.format` can raise on the inputs this
program can produce. -/
inductive FormatError where
  | keyError (key : String)
  | indexError
  | valueError (msg : String)
deriving DecidableEq

/-- Core scanner of `str.format(code_diff=value)`.  The first list is
`none` while scanning literal text and `some acc` while reading a
replacement-field name (accumulated in reverse). -/
def fmtAux (value : String) : Option (List Char) → List Char → Except FormatError (List Char)
  | none, [] => Except.ok []
  | none, a :: rest =>
    if a = lbrace then
      match rest with
      | [] => Except.error (FormatError.valueError "Single \x7b encountered in format string")
      | b :: rest2 =>
        if b = lbrace then
          (fmtAux value none rest2).map (fun t => lbrace :: t)
        else
          fmtAux value (some []) (b :: rest2)
    else if a = rbrace then
      match rest with
      | [] => Except.error (FormatError.valueError "Single \x7d encountered in format string")
      | b :: rest2 =>
        if b = rbrace then
          (fmtAux value none rest2).map (fun t => rbrace :: t)
        else
          Except.error (FormatError.valueError "Single \x7d encountered in format string")
    else
      (fmtAux value none rest).map (fun t => a :: t)
  | some _, [] => Except.error (FormatError.valueError "expected \x7d before end of string")
  | some acc, c :: rest =>
    if c = rbrace then
      let field := String.mk acc.reverse
      if field = "code_diff" then
        (fmtAux value none rest).map (fun t => value.data ++ t)
      else if field = "" then
        Except.error FormatError.indexError
      else
        Except.error (FormatError.keyError field)
    else if c = lbrace then
      Except.error (FormatError.valueError "unexpected \x7b in field name")
    else
      fmtAux value (some (c :: acc)) rest
termination_by _ l => l.length
decreasing_by all_goals simp_arith

/-- `template.format(code_diff=code_diff)` in Python. -/
def pyFormat (template : String) (code_diff : String) : Except FormatError String :=
  (fmtAux code_diff none template.data).map String.mk

/-- The external text-generation endpoint: prompt in, generated text out,
or a raised exception with its message. -/
def Endpoint : Type := String → Except String String

/-- A review persona: name, focus label, prompt template (src/main.py,
class `CodeReviewPersona`; the `config`/`model` fields carry no verified
behaviour beyond the endpoint oracle). -/
structure CodeReviewPersona where
  name : String
  focus : String
  prompt_template : String
deriving DecidableEq

/-- The dict returned by `CodeReviewPersona.review_code`: keys `persona`,
`focus`, `review`, `status` ("success" or "error"). -/
structure Review where
  persona : String
  focus : String
  review : String
  status : String
deriving DecidableEq

/-- `CodeReviewPersona.review_code` (src/main.py lines 71-95).  The
`.format` call happens before the `try` block, so a `FormatError` is
raised to the caller (`Except.error`); an endpoint exception is caught
and converted into an error-status `Review`.  The second component
records the prompts sent to the endpoint. -/
def CodeReviewPersona.review_code (ep : Endpoint) (p : CodeReviewPersona)
    (code_diff : String) : Except FormatError (Review × List String) :=
  match pyFormat p.prompt_template code_diff with
  | Except.error e => Except.error e
  | Except.ok full_prompt =>
    match ep full_prompt with
    | Except.ok text =>
        Except.ok (⟨p.name, p.focus, text, "success"⟩, [full_prompt])
    | Except.error e =>
        Except.ok (⟨p.name, p.focus, "Error during review: " ++ e, "error"⟩, [full_prompt])

/-- The result of one dispatcher run: the collected review dicts, whether
the "no matching personas" warning was printed, and the prompts that were
actually sent to the endpoint (in order). -/
structure DispatchOut where
  reviews : List Review
  warning : Bool
  calls : List String
deriving DecidableEq

/-- Python `str.lower()`, modelled char by char (all strings this program
compares are ASCII, where CPython and this map agree). -/
def pyLower (s : String) : String := String.mk (s.data.map Char.toLower)

/-- The list comprehension of src/main.py line 171:
`[p for p in self.personas if p.name.lower() in [s.lower() for s in selected_personas]]`. -/
def matched_personas (personas : List CodeReviewPersona)
    (selected_personas : List String) : List CodeReviewPersona :=
  personas.filter
    (fun p => (selected_personas.map (fun s => pyLower s)).contains (pyLower p.name))

/-- The dispatch loop of src/main.py lines 179-182: invoke each persona in
order, appending its review.  A raised `FormatError` aborts the loop and
propagates. -/
def runPersonas (ep : Endpoint) (code_diff : String) :
    List CodeReviewPersona → Except FormatError (List Review × List String)
  | [] => Except.ok ([], [])
  | p :: rest =>
    match CodeReviewPersona.review_code ep p code_diff with
    | Except.error e => Except.error e
    | Except.ok (r, c) =>
      match runPersonas ep code_diff rest with
      | Except.error e => Except.error e
      | Except.ok (rs, cs) => Except.ok (r :: rs, c ++ cs)

/-- The engine holds the ordered persona registry (src/main.py,
class `CodeReviewEngine`). -/
structure CodeReviewEngine where
  personas : List CodeReviewPersona

/-- `CodeReviewEngine.review_code` (src/main.py lines 163-184):
`selected_personas = None` runs every registered persona; otherwise the
registry is filtered by case-insensitive name equality, and an empty
filter result prints a warning and returns the empty review list before
any persona is invoked. -/
def CodeReviewEngine.review_code (ep : Endpoint) (engine : CodeReviewEngine)
    (code_diff : String) (selected_personas : Option (List String)) :
    Except FormatError DispatchOut :=
  match selected_personas with
  | none =>
    (runPersonas ep code_diff engine.personas).map
      (fun rc => ⟨rc.1, false, rc.2⟩)
  | some sel =>
    let personas_to_run := matched_personas engine.personas sel
    if personas_to_run.isEmpty then
      Except.ok ⟨[], true, []⟩
    else
      (runPersonas ep code_diff personas_to_run).map
        (fun rc => ⟨rc.1, false, rc.2⟩)

/-- `CodeReviewEngine.format_reviews` (src/main.py lines 197-220):
title, summary counts, then one block per review in input order. -/
def CodeReviewEngine.format_reviews (reviews : List Review) : String :=
  let report := "# 🔍 Multi-Persona Code Review Report\n\n"
  let total_reviews := (reviews.filter (fun r => r.status == "success")).length
  let error_count := (reviews.filter (fun r => r.status == "error")).length
  let report := report ++ "📊 **Review Summary:**\n"
  let report := report ++ "- ✅ Successful reviews: " ++ toString total_reviews ++ "\n"
  let report := report ++ "- ❌ Failed reviews: " ++ toString error_count ++ "\n\n"
  let report := report ++ "---\n\n"
  reviews.foldl
    (fun acc r =>
      if r.status == "success" then
        acc ++ "## 🤖 " ++ r.persona ++ " - " ++ r.focus ++ "\n\n"
          ++ r.review ++ "\n\n" ++ "---\n\n"
      else
        acc ++ "## ❌ " ++ r.persona ++ " - ERROR\n\n"
          ++ r.review ++ "\n\n" ++ "---\n\n")
    report

/-- The fixed meta-prompt built by `generate_persona_prompt`
(src/main.py lines 36-41). -/
def meta_prompt (description : String) : String :=
  "You are  a helfpul AI assistant skilled in prompt engineering\n"
    ++ "Given this persona description, generate a step by step code review prompt template."
    ++ "Persona description: " ++ description ++ "\n\n"
    ++ "Make sure to include sections like focus areas, methodology, output format, and examples."

/-- `generate_persona_prompt` (src/main.py lines 35-54): one endpoint call
with the meta-prompt; the stripped response text on success, the empty
string when the call raises. -/
def generate_persona_prompt (ep : Endpoint) (description : String) : String :=
  match ep (meta_prompt description) with
  | Except.ok text => text.trim
  | Except.error _ => ""

/-- Python truthiness of an optional string argument: `None` and the
empty string are falsy. -/
def truthy : Option String → Bool
  | none => false
  | some s => !(s == "")

/-- `CodeReviewPersona.__init__` (src/main.py lines 57-69): a truthy
`prompt_template` is stored verbatim; otherwise a truthy `description`
triggers meta-prompting; otherwise a `ValueError` is raised. -/
def CodeReviewPersona.init (ep : Endpoint) (name : String) (focus : String)
    (prompt_template : Option String) (description : Option String) :
    Except String CodeReviewPersona :=
  if truthy prompt_template then
    Except.ok ⟨name, focus, prompt_template.getD ""⟩
  else if truthy description then
    Except.ok ⟨name, focus, generate_persona_prompt ep (description.getD "")⟩
  else
    Except.error "Either prompt template or description must be provided."

/-- `CodeReviewEngine._initialize_personas` (src/main.py lines 102-161):
the two built-in personas with their hand-authored templates. -/
def _initialize_personas : List CodeReviewPersona :=
  [ { name := "Code Quality Specialist"
    , focus := "Code maintainability and best practices"
    , prompt_template := "You are a Senior Software Engineer specializing in code quality assessment with extensive experience in enterprise software development. Your responsibility is to conduct thorough maintainability and best practices analysis.\n\n**Analysis Methodology:**\nExecute your review using the following systematic approach:\n1. Structural Assessment: Evaluate function complexity, nesting depth, and code organization\n2. Naming Convention Analysis: Assess variable, function, and class naming clarity\n3. Best Practices Compliance: Verify adherence to language-specific standards and patterns\n4. Maintainability Impact Assessment: Determine long-term implications of current implementation\n\nCode Under Review:\n{code_diff}\n\n**Required Output Format:**\nFor each identified issue, provide:\n1. SEVERITY CLASSIFICATION (🔴 Critical, 🟡 Warning, ℹ️ Info) with CONFIDENCE LEVEL (0-100%)\n2. Detailed technical explanation of the maintainability concern\n3. Business impact assessment and recommended remediation steps\n4. Complete code example demonstrating the proposed solution\n5. Knowledge validation question related to the underlying software engineering principle\n\nMaintain professional technical standards and provide actionable recommendations." }
  , { name := "Bug Hunter"
    , focus := "Potential bugs and edge cases"
    , prompt_template := "You are a Senior Quality Assurance Engineer and Security Specialist with expertise in identifying software defects and vulnerability patterns. Your mandate is to conduct comprehensive defect analysis and risk assessment.\n\n**Systematic Defect Analysis Process:**\nApply the following structured methodology:\n1. Input Validation Assessment: Analyze handling of null, empty, and malformed inputs\n2. Exception Handling Evaluation: Verify comprehensive error management and recovery\n3. Resource Management Review: Assess memory usage, connection handling, and cleanup procedures\n4. Logic Correctness Verification: Identify algorithmic errors and boundary condition failures\n5. Concurrency Safety Analysis: Evaluate thread safety and race condition susceptibility\n\nCode Under Review:\n{code_diff}\n\n**Required Output Format:**\nFor each identified defect, provide:\n1. SEVERITY CLASSIFICATION (🔴 Critical, 🟡 Warning, ℹ️ Info) with CONFIDENCE ASSESSMENT (0-100%)\n2. Defect category and specific failure conditions\n3. Security implications and potential exploitation vectors\n4. Detailed reproduction steps for verification\n5. Complete remediation implementation with defensive programming practices\n6. Quality assurance testing recommendations\n\nExecute thorough analysis maintaining enterprise-grade quality standards." }
  ]

/-- The engine as built by `CodeReviewEngine.__init__`: the default
registry, before any dynamic persona is appended. -/
def defaultEngine : CodeReviewEngine := ⟨_initialize_personas⟩

/-- Endpoint stub that answers every prompt successfully. -/
def epOk : Endpoint := fun _ => Except.ok "ok"

/-- Endpoint stub that raises on every prompt. -/
def epFail : Endpoint := fun _ => Except.error "quota exceeded"

/-- A persona whose template is malformed for this program: its only
placeholder is not the code slot, so `str.format(code_diff=...)` raises
`KeyError`. -/
def brokenPersona : CodeReviewPersona :=
  { name := "Broken", focus := "malformed template", prompt_template := "review \x7bother\x7d now" }

/-- A persona with a minimal well-formed template. -/
def goodPersona : CodeReviewPersona :=
  { name := "Good", focus := "ok template", prompt_template := "please review: {code_diff}" }

/-- Helper: when the template formats successfully, `review_code` always
returns a review (never raises), with the persona name and focus copied
into it, and exactly one endpoint call. -/
lemma review_code_of_format_ok (ep : Endpoint) (p : CodeReviewPersona) (code_diff s : String)
    (h : pyFormat p.prompt_template code_diff = Except.ok s) :
    ∃ r : Review, CodeReviewPersona.review_code ep p code_diff = Except.ok (r, [s])
      ∧ r.persona = p.name ∧ r.focus = p.focus := by
  cases hep : ep s with
  | ok text =>
    exact ⟨⟨p.name, p.focus, text, "success"⟩,
      by simp [CodeReviewPersona.review_code, h, hep], rfl, rfl⟩
  | error e =>
    exact ⟨⟨p.name, p.focus, "Error during review: " ++ e, "error"⟩,
      by simp [CodeReviewPersona.review_code, h, hep], rfl, rfl⟩

/-- Helper: reviewing with `brokenPersona` raises `KeyError` for every
endpoint and every payload, because its template has no code slot. -/
lemma brokenPersona_review_code (ep : Endpoint) (code_diff : String) :
    CodeReviewPersona.review_code ep brokenPersona code_diff =
      Except.error (FormatError.keyError "other") := by
  simp [CodeReviewPersona.review_code, brokenPersona, pyFormat, fmtAux, lbrace, rbrace,
    Except.map]

/-- C1 counterexample: for the persona whose template holds the
placeholder `other` instead of the code slot, `review_code` raises the
`KeyError` to its caller instead of returning a failure `Review`, even
though the endpoint would have answered successfully. -/
theorem c1_counterexample_templating_raises :
    CodeReviewPersona.review_code epOk brokenPersona "print(1)" =
      Except.error (FormatError.keyError "other") :=
  brokenPersona_review_code epOk "print(1)"

/-- C1 (corrected): a templating failure in `review_code` is raised to
the caller unchanged — the `.format` call sits before the `try` block,
so only endpoint errors are converted into failure reviews. -/
theorem c1_format_error_propagates (ep : Endpoint) (p : CodeReviewPersona)
    (code_diff : String) (e : FormatError)
    (h : pyFormat p.prompt_template code_diff = Except.error e) :
    CodeReviewPersona.review_code ep p code_diff = Except.error e := by
  unfold CodeReviewPersona.review_code
  rw [h]

/-- C1 witness: the corrected statement at a concrete malformed template. -/
theorem c1_format_error_propagates_witness :
    CodeReviewPersona.review_code epFail brokenPersona "x" =
      Except.error (FormatError.keyError "other") :=
  c1_format_error_propagates epFail brokenPersona "x" (FormatError.keyError "other")
    (by simp [brokenPersona, pyFormat, fmtAux, lbrace, rbrace, Except.map])

/-- C4 (confirmed): when the endpoint raises during `review_code`, the
persona returns an error-status `Review` whose body is the prefixed
exception message, and no exception reaches the dispatcher. -/
theorem c4_endpoint_error_is_failure_review (ep : Endpoint) (p : CodeReviewPersona)
    (code_diff full_prompt e : String)
    (hfmt : pyFormat p.prompt_template code_diff = Except.ok full_prompt)
    (hep : ep full_prompt = Except.error e) :
    CodeReviewPersona.review_code ep p code_diff =
      Except.ok (⟨p.name, p.focus, "Error during review: " ++ e, "error"⟩, [full_prompt]) := by
  simp [CodeReviewPersona.review_code, hfmt, hep]

/-- C4 witness: a failing endpoint against the small well-formed persona. -/
theorem c4_endpoint_error_witness :
    CodeReviewPersona.review_code epFail goodPersona "x" =
      Except.ok (⟨"Good", "ok template", "Error during review: quota exceeded", "error"⟩,
        ["please review: x"]) :=
  c4_endpoint_error_is_failure_review epFail goodPersona "x" "please review: x"
    "quota exceeded"
    (by simp [goodPersona, pyFormat, fmtAux, lbrace, rbrace, Except.map]) rfl

/-- C8 (confirmed): constructing a persona from a description when the
meta-prompt call raises yields a persona (no hard failure) whose template
is the empty string. -/
theorem c8_meta_failure_empty_template (ep : Endpoint) (name focus description e : String)
    (hdesc : description ≠ "") (hep : ep (meta_prompt description) = Except.error e) :
    CodeReviewPersona.init ep name focus none (some description) =
      Except.ok ⟨name, focus, ""⟩ := by
  simp [CodeReviewPersona.init, truthy, generate_persona_prompt, hdesc, hep]

/-- C8 witness: the accessibility persona against the failing endpoint. -/
theorem c8_meta_failure_witness :
    CodeReviewPersona.init epFail "Custom Persona" "Custom review focus"
      none (some "focuses on accessibility") =
      Except.ok ⟨"Custom Persona", "Custom review focus", ""⟩ :=
  c8_meta_failure_empty_template epFail "Custom Persona" "Custom review focus"
    "focuses on accessibility" "quota exceeded" (by decide) rfl

/-- C10 (confirmed): constructing a persona with neither a truthy prompt
template nor a truthy description raises `ValueError`; every persona the
constructor does return carries the given name and focus, and its
template is either the supplied one or the meta-prompt output (which is
empty when that call failed). -/
theorem c10_init_requires_template_or_description :
    (∀ (ep : Endpoint) (name focus : String),
        CodeReviewPersona.init ep name focus none none =
          Except.error "Either prompt template or description must be provided.")
    ∧ (∀ (ep : Endpoint) (name focus : String) (t d : Option String)
          (p : CodeReviewPersona),
        CodeReviewPersona.init ep name focus t d = Except.ok p →
          p.name = name ∧ p.focus = focus ∧
            (p.prompt_template = t.getD "" ∨
              p.prompt_template = generate_persona_prompt ep (d.getD ""))) := by
  constructor
  · intro ep name focus
    rfl
  · intro ep name focus t d p h
    unfold CodeReviewPersona.init at h
    by_cases h1 : truthy t
    · simp only [h1, if_true] at h
      cases h
      exact ⟨rfl, rfl, Or.inl rfl⟩
    · by_cases h2 : truthy d
      · simp only [h1, h2, if_false, if_true] at h
        cases h
        exact ⟨rfl, rfl, Or.inr rfl⟩
      · simp [h1, h2] at h

/-- C10 witness: the corrected-template path at concrete arguments. -/
theorem c10_witness :
    (⟨"N", "F", "T"⟩ : CodeReviewPersona).name = "N"
      ∧ (⟨"N", "F", "T"⟩ : CodeReviewPersona).focus = "F"
      ∧ ((⟨"N", "F", "T"⟩ : CodeReviewPersona).prompt_template = (some "T").getD ""
          ∨ (⟨"N", "F", "T"⟩ : CodeReviewPersona).prompt_template =
              generate_persona_prompt epOk ((none : Option String).getD "")) :=
  c10_init_requires_template_or_description.2 epOk "N" "F" (some "T") none
    ⟨"N", "F", "T"⟩ (by rfl)

/-- Helper: when every persona in the list has a template that formats
successfully on the payload, the dispatch loop returns exactly one review
per persona, in list order, carrying each persona name and focus —
whatever the endpoint does. -/
lemma runPersonas_of_format_ok (ep : Endpoint) (code_diff : String) :
    ∀ l : List CodeReviewPersona,
      (∀ p ∈ l, ∃ s, pyFormat p.prompt_template code_diff = Except.ok s) →
      ∃ rs cs, runPersonas ep code_diff l = Except.ok (rs, cs)
        ∧ rs.map (fun r => r.persona) = l.map (fun p => p.name)
        ∧ rs.map (fun r => r.focus) = l.map (fun p => p.focus) := by
  intro l
  induction l with
  | nil => exact fun _ => ⟨[], [], rfl, rfl, rfl⟩
  | cons p t ih =>
    intro h
    obtain ⟨s, hs⟩ := h p (List.mem_cons_self p t)
    obtain ⟨r, hr, hrn, hrf⟩ := review_code_of_format_ok ep p code_diff s hs
    obtain ⟨rs, cs, hrun, hn, hf⟩ := ih (fun q hq => h q (List.mem_cons_of_mem p hq))
    refine ⟨r :: rs, s :: cs, ?_, ?_, ?_⟩
    · simp [runPersonas, hr, hrun]
    · simp [hn, hrn]
    · simp [hf, hrf]

/-- Small engine fixture with the one well-formed persona. -/
def engineG : CodeReviewEngine := ⟨[goodPersona]⟩

/-- Engine fixture whose registry pairs the malformed-template persona
with a well-formed one. -/
def engineBroken : CodeReviewEngine := ⟨[brokenPersona, goodPersona]⟩

/-- C2 counterexample: with the default two-persona registry, supplying
the empty desired-names list does not select all personas — the
dispatcher warns and returns zero reviews, although two personas are
registered.  Only the absent (`None`) list selects everything. -/
theorem c2_counterexample_empty_list_selects_nothing :
    CodeReviewEngine.review_code epOk defaultEngine "x" (some []) =
        Except.ok ⟨[], true, []⟩
      ∧ defaultEngine.personas.length = 2 := ⟨rfl, rfl⟩

/-- C2 (corrected): an absent (`None`) desired-names list dispatches all
registered personas in registration order — one review per persona, with
no warning — provided each registered template formats on the payload; a
present-but-empty list instead matches no persona, warns, and produces no
reviews and no endpoint calls. -/
theorem c2_none_selection_runs_all_personas :
    (∀ (ep : Endpoint) (engine : CodeReviewEngine) (code_diff : String),
        (∀ p ∈ engine.personas, ∃ s, pyFormat p.prompt_template code_diff = Except.ok s) →
        ∃ out : DispatchOut,
          CodeReviewEngine.review_code ep engine code_diff none = Except.ok out
            ∧ out.warning = false
            ∧ out.reviews.map (fun r => r.persona) = engine.personas.map (fun p => p.name))
    ∧ (∀ (ep : Endpoint) (engine : CodeReviewEngine) (code_diff : String),
        CodeReviewEngine.review_code ep engine code_diff (some []) =
          Except.ok ⟨[], true, []⟩) := by
  constructor
  · intro ep engine code_diff h
    obtain ⟨rs, cs, hrun, hn, _⟩ := runPersonas_of_format_ok ep code_diff engine.personas h
    exact ⟨⟨rs, false, cs⟩, by simp [CodeReviewEngine.review_code, hrun, Except.map], rfl, hn⟩
  · intro ep engine code_diff
    simp [CodeReviewEngine.review_code, matched_personas]

/-- C2 witness: the corrected absent-list case at a concrete engine. -/
theorem c2_witness :
    ∃ out : DispatchOut,
      CodeReviewEngine.review_code epOk engineG "x" none = Except.ok out
        ∧ out.warning = false
        ∧ out.reviews.map (fun r => r.persona) = engineG.personas.map (fun p => p.name) :=
  c2_none_selection_runs_all_personas.1 epOk engineG "x"
    (by
      intro p hp
      simp only [engineG, List.mem_singleton] at hp
      subst hp
      exact ⟨"please review: x",
        by simp [goodPersona, pyFormat, fmtAux, lbrace, rbrace, Except.map]⟩)

/-- C3 counterexample: a registry where a malformed-template persona
precedes a well-formed one, with both selected and an endpoint that
succeeds everywhere: the dispatch raises the first persona's KeyError, so
the second persona's review is dropped and no list is returned. -/
theorem c3_counterexample_failing_persona_drops_rest :
    CodeReviewEngine.review_code epOk engineBroken "x" (some ["broken", "good"]) =
      Except.error (FormatError.keyError "other") := by
  have hm : matched_personas engineBroken.personas ["broken", "good"] =
      [brokenPersona, goodPersona] := by decide
  simp [CodeReviewEngine.review_code, hm, runPersonas, brokenPersona_review_code, Except.map]

/-- C3 (corrected): for a selection matching at least one persona, and
provided each matched persona's template formats on the payload, the
dispatcher returns exactly one review per matched persona, in registry
order, for every endpoint behaviour — so an endpoint failure in one
persona never drops another persona's review.  (A templating failure, by
contrast, aborts the loop — see the counterexample.) -/
theorem c3_matched_selection_one_result_each (ep : Endpoint)
    (engine : CodeReviewEngine) (code_diff : String) (sel : List String)
    (hne : matched_personas engine.personas sel ≠ [])
    (hfmt : ∀ p ∈ matched_personas engine.personas sel,
      ∃ s, pyFormat p.prompt_template code_diff = Except.ok s) :
    ∃ out : DispatchOut,
      CodeReviewEngine.review_code ep engine code_diff (some sel) = Except.ok out
        ∧ out.warning = false
        ∧ out.reviews.map (fun r => r.persona) =
            (matched_personas engine.personas sel).map (fun p => p.name)
        ∧ out.reviews.map (fun r => r.focus) =
            (matched_personas engine.personas sel).map (fun p => p.focus) := by
  obtain ⟨rs, cs, hrun, hn, hf⟩ :=
    runPersonas_of_format_ok ep code_diff (matched_personas engine.personas sel) hfmt
  refine ⟨⟨rs, false, cs⟩, ?_, rfl, hn, hf⟩
  simp [CodeReviewEngine.review_code, hrun, List.isEmpty_iff, hne, Except.map]

/-- C3 witness: the corrected statement at a concrete matched selection,
with an endpoint that fails on every call. -/
theorem c3_witness :
    ∃ out : DispatchOut,
      CodeReviewEngine.review_code epFail engineG "x" (some ["good"]) = Except.ok out
        ∧ out.warning = false
        ∧ out.reviews.map (fun r => r.persona) =
            (matched_personas engineG.personas ["good"]).map (fun p => p.name)
        ∧ out.reviews.map (fun r => r.focus) =
            (matched_personas engineG.personas ["good"]).map (fun p => p.focus) :=
  c3_matched_selection_one_result_each epFail engineG "x" ["good"] (by decide)
    (by
      intro p hp
      have : p = goodPersona := by
        have hm : matched_personas engineG.personas ["good"] = [goodPersona] := by decide
        rw [hm] at hp
        simpa using hp
      subst this
      exact ⟨"please review: x",
        by simp [goodPersona, pyFormat, fmtAux, lbrace, rbrace, Except.map]⟩)

/-- C5 (confirmed): a desired-names list matching zero registered
personas yields the empty review list, the warning, and an empty
endpoint-call trace — no persona is invoked. -/
theorem c5_no_match_warns_and_calls_nothing (ep : Endpoint)
    (engine : CodeReviewEngine) (code_diff : String) (sel : List String)
    (h : matched_personas engine.personas sel = []) :
    CodeReviewEngine.review_code ep engine code_diff (some sel) =
      Except.ok ⟨[], true, []⟩ := by
  simp [CodeReviewEngine.review_code, h]

/-- C5 witness: the default registry with a name that matches nothing. -/
theorem c5_witness :
    CodeReviewEngine.review_code epOk defaultEngine "x" (some ["nonexistent"]) =
      Except.ok ⟨[], true, []⟩ :=
  c5_no_match_warns_and_calls_nothing epOk defaultEngine "x" ["nonexistent"] (by decide)

/-- C9 (confirmed): a persona is selected exactly when some desired name
lowercases to its full lowercased name — so a strict-substring
abbreviation selects nothing; in particular the abbreviation
"code quality" suggested by the built-in usage examples matches neither
default persona. -/
theorem c9_selection_requires_full_name_equality :
    (∀ (personas : List CodeReviewPersona) (sel : List String) (p : CodeReviewPersona),
        p ∈ matched_personas personas sel ↔
          p ∈ personas ∧ ∃ s ∈ sel, pyLower s = pyLower p.name)
    ∧ matched_personas _initialize_personas ["code quality"] = [] := by
  constructor
  · intro personas sel p
    simp [matched_personas, List.mem_filter, List.contains, List.elem_iff,
      List.mem_map, eq_comm]
  · decide

/-- One rendered block of the report, as appended by the loop of
`format_reviews`: a success block with the robot marker, or an error
block with the cross marker. -/
def resultBlock (r : Review) : String :=
  if r.status == "success" then
    "## 🤖 " ++ r.persona ++ " - " ++ r.focus ++ "\n\n" ++ r.review ++ "\n\n" ++ "---\n\n"
  else
    "## ❌ " ++ r.persona ++ " - ERROR\n\n" ++ r.review ++ "\n\n" ++ "---\n\n"

/-- Helper: each step of the report loop appends exactly one block. -/
lemma fold_step_eq (acc : String) (r : Review) :
    (if r.status == "success" then
        acc ++ "## 🤖 " ++ r.persona ++ " - " ++ r.focus ++ "\n\n"
          ++ r.review ++ "\n\n" ++ "---\n\n"
      else
        acc ++ "## ❌ " ++ r.persona ++ " - ERROR\n\n"
          ++ r.review ++ "\n\n" ++ "---\n\n")
      = acc ++ resultBlock r := by
  unfold resultBlock
  cases h : r.status == "success" <;>
    simp only [h, if_true, if_false, Bool.false_eq_true] <;>
    (apply String.ext; simp [String.data_append, List.append_assoc])

/-- Helper: folding block appends over the review list concatenates the
blocks, in input order, after the initial segment. -/
lemma foldl_blocks (l : List Review) (init : String) :
    l.foldl (fun acc r => acc ++ resultBlock r) init =
      init ++ String.join (l.map resultBlock) := by
  induction l generalizing init with
  | nil =>
    apply String.ext
    simp
  | cons r t ih =>
    simp only [List.foldl_cons, List.map_cons, ih]
    apply String.ext
    simp [String.data_append, List.append_assoc]

/-- C6 (confirmed): the rendered report is the title, a summary whose
success and failure counts are the counts of success- and error-status
results, then one block per result in input order (success and failure
blocks carrying persona name/focus/body with distinct markers); and for
one failed plus one succeeded result the two counts are exactly one
each. -/
theorem c6_report_structure (reviews : List Review) :
    CodeReviewEngine.format_reviews reviews =
      "# 🔍 Multi-Persona Code Review Report\n\n"
        ++ "📊 **Review Summary:**\n"
        ++ "- ✅ Successful reviews: "
        ++ toString (reviews.countP (fun r => r.status == "success")) ++ "\n"
        ++ "- ❌ Failed reviews: "
        ++ toString (reviews.countP (fun r => r.status == "error")) ++ "\n\n"
        ++ "---\n\n"
        ++ String.join (reviews.map resultBlock)
    ∧ (∀ rf rs : Review, rf.status = "error" → rs.status = "success" →
        [rf, rs].countP (fun r => r.status == "success") = 1
          ∧ [rf, rs].countP (fun r => r.status == "error") = 1) := by
  constructor
  · simp only [CodeReviewEngine.format_reviews, fold_step_eq]
    rw [foldl_blocks, List.countP_eq_length_filter, List.countP_eq_length_filter]
  · intro rf rs h1 h2
    constructor <;> simp [List.countP_cons, List.countP_nil, h1, h2]

/-- Review fixture: a failed review of the first default persona. -/
def revErr : Review :=
  ⟨"Bug Hunter", "Potential bugs and edge cases",
    "Error during review: quota exceeded", "error"⟩

/-- Review fixture: a succeeded review of the other default persona. -/
def revOk : Review :=
  ⟨"Code Quality Specialist", "Code maintainability and best practices",
    "looks fine", "success"⟩

/-- C6 witness: one failed and one succeeded review count one each. -/
theorem c6_witness :
    [revErr, revOk].countP (fun r => r.status == "success") = 1
      ∧ [revErr, revOk].countP (fun r => r.status == "error") = 1 :=
  (c6_report_structure [revErr, revOk]).2 revErr revOk rfl rfl

/-- Rendering the same ordered review sequence twice, in sequence. -/
def renderTwice (reviews : List Review) : String × String :=
  (CodeReviewEngine.format_reviews reviews, CodeReviewEngine.format_reviews reviews)

/-- C7 (confirmed): rendering is a pure function of the review list — it
touches no state in the embedding — so rendering the same ordered
sequence twice yields byte-identical strings. -/
theorem c7_render_deterministic (reviews : List Review) :
    (renderTwice reviews).1 = (renderTwice reviews).2 := rfl
